import Mathlib

/-!
Verification development for the go-ws-socket relay hub.

The definitions below are a shallow embedding of the hub core found in
`database.go` (the `Server` half) and `handlers.go`.  Go maps are embedded
as association lists (`List (String × α)`) with insert-or-replace and
erase-all-occurrences operations, which matches the unique-key semantics of
Go maps; Go's `map[string]bool` membership sets become `List String` with
no-duplicate insertion.  The per-session buffered channel `outChan`
(capacity 100) becomes a FIFO `List Message` together with the capacity
constant.  Side effects that leave the state (hook invocations, direct
websocket writes, fan-out calls, transport closes) are recorded in an
explicit `Event` trace.  Wall-clock inputs (`time.Now().UnixNano()` inside
`generateMessageID`) are passed as an explicit `nano : Nat` parameter.
-/

/-- Association-list lookup; mirrors a Go map read `m[k]`. -/
def lookupA {α : Type} (m : List (String × α)) (k : String) : Option α :=
  match m with
  | [] => none
  | (k2, v) :: t => if k2 = k then some v else lookupA t k

/-- Association-list insert-or-replace; mirrors a Go map write `m[k] = v`. -/
def insertA {α : Type} (m : List (String × α)) (k : String) (v : α) : List (String × α) :=
  match m with
  | [] => [(k, v)]
  | (k2, v2) :: t => if k2 = k then (k2, v) :: t else (k2, v2) :: insertA t k v

/-- Association-list erase; mirrors Go `delete(m, k)`. -/
def eraseA {α : Type} (m : List (String × α)) (k : String) : List (String × α) :=
  match m with
  | [] => []
  | (k2, v2) :: t => if k2 = k then eraseA t k else (k2, v2) :: eraseA t k

/-- Erase from a membership list; mirrors `delete(set, x)` on a Go
`map[string]bool` used as a set. -/
def eraseS (l : List String) (x : String) : List String :=
  match l with
  | [] => []
  | y :: t => if y = x then eraseS t x else y :: eraseS t x

/-- Set-insert on a membership list; mirrors `set[x] = true` on a Go
`map[string]bool` used as a set. -/
def insertSet (l : List String) (x : String) : List String :=
  if x ∈ l then l else l ++ [x]

/-- Payload values occurring in the hub: strings (e.g. the presence
`action`) and string lists (the presence `users` list).  Embeds the parts
of Go's `map[string]interface{}` the hub itself reads or writes. -/
inductive PValue where
  | str (s : String)
  | strList (l : List String)
  deriving DecidableEq

/-- Message from `types.go`.  `MessageType` is a string in the source, so
`type` is embedded as `String`.  `Payload` is a possibly-nil Go map, hence
`Option`.  The `Metadata` field is opaque to the hub and never read by any
function embedded here, so it is omitted. -/
structure Message where
  id : String
  type : String
  sender : String
  recipient : String
  channel : String
  payload : Option (List (String × PValue))
  timestamp : Int
  deriving DecidableEq

/-- Connection from `types.go`.  `ExtraData`, `CreatedAt` and `LastSeen`
are never read by the routing and registry code embedded here and are
omitted.  `outChan` is the buffered channel's FIFO contents. -/
structure Connection where
  id : String
  userId : String
  channels : List String
  outChan : List Message
  deriving DecidableEq

/-- BroadcastOptions from `types.go`. -/
structure BroadcastOptions where
  excludeConnID : Bool := false
  channel : String := ""
  userID : String := ""
  deriving DecidableEq

/-- ServerConfig from `types.go` (durations as naturals). -/
structure ServerConfig where
  readBufferSize : Nat := 0
  writeBufferSize : Nat := 0
  maxConnections : Nat := 0
  pingInterval : Nat := 0
  pongWait : Nat := 0
  deriving DecidableEq

/-- Observable side effects of the hub operations: lifecycle hook
invocations, removal from the topology, a channel fan-out call, a
broadcast-to-all call, a direct websocket write, and a transport close. -/
inductive Event where
  | onConnectHook (connID : String)
  | onDisconnectHook (c : Connection)
  | removed (connID : String)
  | fanout (channel : String) (msg : Message)
  | fanoutAll (msg : Message)
  | wsWrite (connID : String) (msg : Message)
  | wsClose
  deriving DecidableEq

/-- Server from `database.go`.  `connectionWSMap` keeps only the ids that
hold a live transport (the `*websocket.Conn` values themselves are outside
the embedding).  Registered hooks are embedded as a presence flag plus, for
the connect hook, an oracle giving the hook's error outcome per connection;
the message hooks and handler table are not needed by the claims. -/
structure Server where
  connections : List (String × Connection)
  connectionWSMap : List String
  channels : List (String × List String)
  maxConnections : Nat
  hasOnConnectHook : Bool
  onConnectHookFails : Connection → Bool
  hasOnDisconnectHook : Bool

/-- Capacity of a session's outbox: `make(chan *Message, 100)` in
`HandleConnection`. -/
def outboxCapacity : Nat := 100

/-- NewServer from `database.go`: applies the configuration defaults
(buffer sizes 1024, ping 30s, pong 60s, max connections 10000) and starts
with empty maps and no hooks registered. -/
def NewServer (config : ServerConfig) : Server :=
  let cfg : ServerConfig :=
    { readBufferSize := if config.readBufferSize = 0 then 1024 else config.readBufferSize
      writeBufferSize := if config.writeBufferSize = 0 then 1024 else config.writeBufferSize
      pingInterval := if config.pingInterval = 0 then 30 else config.pingInterval
      pongWait := if config.pongWait = 0 then 60 else config.pongWait
      maxConnections := if config.maxConnections = 0 then 10000 else config.maxConnections }
  { connections := []
    connectionWSMap := []
    channels := []
    maxConnections := cfg.maxConnections
    hasOnConnectHook := false
    onConnectHookFails := fun _ => false
    hasOnDisconnectHook := false }

/-- RegisterOnConnectHook from `database.go`: stores the hook; the oracle
`fails` tells whether the hook returns a non-nil error on a connection. -/
def RegisterOnConnectHook (s : Server) (fails : Connection → Bool) : Server :=
  { s with hasOnConnectHook := true, onConnectHookFails := fails }

/-- RegisterOnDisconnectHook from `database.go`: stores the hook (its
return value is ignored by `removeConnection`). -/
def RegisterOnDisconnectHook (s : Server) : Server :=
  { s with hasOnDisconnectHook := true }

/-- generateMessageID from `database.go`: `"msg_" + UnixNano`, with the
clock passed explicitly. -/
def generateMessageID (nano : Nat) : String :=
  "msg_" ++ toString nano

/-- SendToConnection from `database.go`: look up the connection, then a
non-blocking channel send — accepted when the buffer has a free slot,
otherwise the envelope is dropped and an error is returned. -/
def SendToConnection (s : Server) (connID : String) (msg : Message) :
    Server × Except String Unit :=
  match lookupA s.connections connID with
  | none => (s, Except.error ("connection not found: " ++ connID))
  | some conn =>
    if conn.outChan.length < outboxCapacity then
      ({ s with connections :=
          insertA s.connections connID { conn with outChan := conn.outChan ++ [msg] } },
        Except.ok ())
    else
      (s, Except.error ("outgoing message channel full for connection: " ++ connID))

/-- sendToUser from `database.go`: iterate all connections, and for every
one whose user matches, write the message directly to its websocket (an
`Event.wsWrite`); the registry and all outboxes are left untouched and the
function always returns nil. -/
def sendToUser (s : Server) (userID : String) (msg : Message) :
    Server × List Event × Except String Unit :=
  let events := s.connections.foldl
    (fun evs kv =>
      if kv.2.userId = userID then
        if kv.1 ∈ s.connectionWSMap then evs ++ [Event.wsWrite kv.1 msg] else evs
      else evs) []
  (s, events, Except.ok ())

/-- broadcastToChannel from `database.go`: error when the channel has no
entry; otherwise snapshot the member ids and `SendToConnection` to each.
The `opts` argument is received but never read by the Go source. -/
def broadcastToChannel (s : Server) (channel : String) (msg : Message)
    (opts : BroadcastOptions) : Server × List Event × Except String Unit :=
  match lookupA s.channels channel with
  | none => (s, [], Except.error ("channel not found: " ++ channel))
  | some connIDs =>
    let s2 := connIDs.foldl (fun st connID => (SendToConnection st connID msg).1) s
    (s2, [Event.fanout channel msg], Except.ok ())

/-- broadcastAll from `database.go`: snapshot all connection ids and
`SendToConnection` to each; `opts` is never read. -/
def broadcastAll (s : Server) (msg : Message) (opts : BroadcastOptions) :
    Server × List Event × Except String Unit :=
  let connIDs := s.connections.map (fun kv => kv.1)
  let s2 := connIDs.foldl (fun st connID => (SendToConnection st connID msg).1) s
  (s2, [Event.fanoutAll msg], Except.ok ())

/-- SubscribeToChannel from `database.go`: error when the connection is not
registered; otherwise add the channel to the connection's set and the
connection id to the channel's set (creating the set if absent). -/
def SubscribeToChannel (s : Server) (connID channel : String) :
    Except String Server :=
  match lookupA s.connections connID with
  | none => Except.error ("connection not found: " ++ connID)
  | some conn =>
    let conn2 := { conn with channels := insertSet conn.channels channel }
    let set0 := (lookupA s.channels channel).getD []
    Except.ok { s with
      connections := insertA s.connections connID conn2
      channels := insertA s.channels channel (insertSet set0 connID) }

/-- UnsubscribeFromChannel from `database.go`: error when the connection is
not registered; otherwise delete the channel from the connection's set,
delete the connection from the channel's set, and drop the channel entry
when its set becomes empty. -/
def UnsubscribeFromChannel (s : Server) (connID channel : String) :
    Except String Server :=
  match lookupA s.connections connID with
  | none => Except.error ("connection not found: " ++ connID)
  | some conn =>
    let conn2 := { conn with channels := eraseS conn.channels channel }
    let connections2 := insertA s.connections connID conn2
    let channels2 :=
      match lookupA s.channels channel with
      | none => s.channels
      | some set =>
        let set2 := eraseS set connID
        if set2.isEmpty then eraseA s.channels channel
        else insertA s.channels channel set2
    Except.ok { s with connections := connections2, channels := channels2 }

/-- GetActiveUsersInChannel from `database.go`: empty when the channel has
no entry; otherwise collect each member session's user id, skipping ids
already seen (the `seen` map holds exactly the users appended so far). -/
def GetActiveUsersInChannel (s : Server) (channel : String) : List String :=
  match lookupA s.channels channel with
  | none => []
  | some connIDs =>
    connIDs.foldl
      (fun users connID =>
        match lookupA s.connections connID with
        | none => users
        | some conn =>
          if conn.userId ∈ users then users else users ++ [conn.userId])
      []

/-- Body of the channel-cleanup loop of removeConnection in `database.go`:
delete the connection id from one channel's set and drop the entry when the
set becomes empty. -/
def removeChannelEntry (m : List (String × List String)) (connID c : String) :
    List (String × List String) :=
  match lookupA m c with
  | none => m
  | some set =>
    let set2 := eraseS set connID
    if set2.isEmpty then eraseA m c else insertA m c set2

/-- Channel-side cleanup loop of removeConnection in `database.go`: for
each channel the connection subscribed to, delete the connection id from
the channel's set and drop the entry when the set becomes empty. -/
def removeFromChannels (chans : List (String × List String)) (connID : String)
    (cs : List String) : List (String × List String) :=
  cs.foldl (fun m c => removeChannelEntry m connID c) chans

/-- removeConnection from `database.go`: a no-op on an unregistered id;
otherwise invoke the disconnect hook (if registered) while the connection
is still in the registry, then delete it from the connection map, the
websocket map, and every channel set it subscribed to. -/
def removeConnection (s : Server) (connID : String) : Server × List Event :=
  match lookupA s.connections connID with
  | none => (s, [])
  | some conn =>
    let hookEvents :=
      if s.hasOnDisconnectHook then [Event.onDisconnectHook conn] else []
    ({ s with
        connections := eraseA s.connections connID
        connectionWSMap := eraseS s.connectionWSMap connID
        channels := removeFromChannels s.channels connID conn.channels },
      hookEvents ++ [Event.removed connID])

/-- HandleConnection from `database.go`, after a successful transport
upgrade: refuse admission (close the transport, invoke no hook, change no
state) when the connection count is at the ceiling; otherwise register the
fresh connection (empty subscriptions, empty outbox, a live transport) and
run the connect hook — whose failure rolls the registration back via
`removeConnection` and closes the transport. -/
def handleConnection (s : Server) (connID userID : String) :
    Server × List Event × Except String Unit :=
  if s.connections.length ≥ s.maxConnections then
    (s, [Event.wsClose], Except.error "max connections reached")
  else
    let conn : Connection :=
      { id := connID, userId := userID, channels := [], outChan := [] }
    let s1 := { s with
      connections := insertA s.connections connID conn
      connectionWSMap := insertSet s.connectionWSMap connID }
    if s1.hasOnConnectHook then
      if s1.onConnectHookFails conn then
        let r := removeConnection s1 connID
        (r.1, Event.onConnectHook connID :: r.2 ++ [Event.wsClose],
          Except.error "on connect hook error")
      else
        (s1, [Event.onConnectHook connID], Except.ok ())
    else
      (s1, [], Except.ok ())

/-- routeMessage from `database.go`: recipient first, then channel (with
the never-honoured exclude option), else broadcast to all.  The `conn`
parameter is unused in the Go body as well. -/
def routeMessage (s : Server) (conn : Connection) (msg : Message) :
    Server × List Event :=
  if msg.recipient ≠ "" then
    let r := sendToUser s msg.recipient msg
    (r.1, r.2.1)
  else if msg.channel ≠ "" then
    let r := broadcastToChannel s msg.channel msg { excludeConnID := true }
    (r.1, r.2.1)
  else
    let r := broadcastAll s msg {}
    (r.1, r.2.1)

/-- ChatHandler from `handlers.go`: nil payload is an error; otherwise a
non-empty recipient routes via `sendToUser`, else a non-empty channel
broadcasts, else nothing happens — and the handler returns nil. -/
def ChatHandler (s : Server) (conn : Connection) (msg : Message) :
    Server × List Event × Except String Unit :=
  match msg.payload with
  | none => (s, [], Except.error "payload is required for chat messages")
  | some _ =>
    if msg.recipient ≠ "" then
      let r := sendToUser s msg.recipient msg
      (r.1, r.2.1, Except.ok ())
    else if msg.channel ≠ "" then
      let r := broadcastToChannel s msg.channel msg { excludeConnID := true }
      (r.1, r.2.1, Except.ok ())
    else
      (s, [], Except.ok ())

/-- GroupChatHandler from `handlers.go`: empty channel is an error;
otherwise broadcast to the channel (the exclude option is passed but
`broadcastToChannel` never reads it). -/
def GroupChatHandler (s : Server) (conn : Connection) (msg : Message) :
    Server × List Event × Except String Unit :=
  if msg.channel = "" then
    (s, [], Except.error "channel is required for group chat messages")
  else
    let r := broadcastToChannel s msg.channel msg { excludeConnID := true }
    (r.1, r.2.1, Except.ok ())

/-- PrivateChatHandler from `handlers.go`: empty recipient is an error;
otherwise deliver via `sendToUser`. -/
def PrivateChatHandler (s : Server) (conn : Connection) (msg : Message) :
    Server × List Event × Except String Unit :=
  if msg.recipient = "" then
    (s, [], Except.error "recipient is required for private chat messages")
  else
    let r := sendToUser s msg.recipient msg
    (r.1, r.2.1, Except.ok ())

/-- TypingHandler from `handlers.go`: channel first (broadcast), else
recipient (`sendToUser`), else nothing; always returns nil. -/
def TypingHandler (s : Server) (conn : Connection) (msg : Message) :
    Server × List Event × Except String Unit :=
  if msg.channel ≠ "" then
    let r := broadcastToChannel s msg.channel msg { excludeConnID := false }
    (r.1, r.2.1, Except.ok ())
  else if msg.recipient ≠ "" then
    let r := sendToUser s msg.recipient msg
    (r.1, r.2.1, Except.ok ())
  else
    (s, [], Except.ok ())

/-- Reading `msg.Payload["action"].(string)`: a string value under the key,
with a nil map or a non-string value giving a failed type assertion. -/
def payloadGetString (p : Option (List (String × PValue))) (k : String) :
    Option String :=
  match p with
  | none => none
  | some l =>
    match lookupA l k with
    | some (PValue.str v) => some v
    | _ => none

/-- Presence-list broadcast tail of PresenceHandler in `handlers.go`:
compute the channel's active users and broadcast a `system:presence`
envelope carrying them (the broadcast error is ignored by the source). -/
def presenceBroadcast (nano : Nat) (s : Server) (msg : Message) :
    Server × List Event :=
  let users := GetActiveUsersInChannel s msg.channel
  let presenceMsg : Message :=
    { id := generateMessageID nano
      type := "system:presence"
      sender := "system"
      recipient := ""
      channel := msg.channel
      payload := some [("users", PValue.strList users)]
      timestamp := msg.timestamp }
  let r := broadcastToChannel s msg.channel presenceMsg {}
  (r.1, r.2.1)

/-- PresenceHandler from `handlers.go`: on `action == "join"` with a
non-empty channel, subscribe the originating connection (propagating a
subscribe error), broadcast a synthesized `system:user_joined` envelope
(sender `"system"`, payload user taken from the envelope's sender field),
then broadcast the presence list; otherwise only the presence list. -/
def PresenceHandler (nano : Nat) (s : Server) (conn : Connection)
    (msg : Message) : Server × List Event × Except String Unit :=
  if payloadGetString msg.payload "action" = some "join" ∧ msg.channel ≠ "" then
    match SubscribeToChannel s conn.id msg.channel with
    | Except.error e => (s, [], Except.error e)
    | Except.ok s1 =>
      let joinMsg : Message :=
        { id := generateMessageID nano
          type := "system:user_joined"
          sender := "system"
          recipient := ""
          channel := msg.channel
          payload := some [("user", PValue.str msg.sender)]
          timestamp := msg.timestamp }
      let r1 := broadcastToChannel s1 msg.channel joinMsg {}
      let r2 := presenceBroadcast (nano + 1) r1.1 msg
      (r2.1, r1.2.1 ++ r2.2, Except.ok ())
  else
    let r2 := presenceBroadcast nano s msg
    (r2.1, r2.2, Except.ok ())

/-- Membership set of a channel (empty when the channel has no entry). -/
def chanOf (s : Server) (c : String) : List String :=
  (lookupA s.channels c).getD []

/-- Subscription set of a connection id (empty when not registered). -/
def subsOf (s : Server) (cid : String) : List String :=
  ((lookupA s.connections cid).map Connection.channels).getD []

/-- Bidirectional invariant of the topology registry: a connection id is in
a channel's member set exactly when the channel is in that connection's
subscription set (an unregistered id subscribes to nothing). -/
def TopoInv (s : Server) : Prop :=
  ∀ cid c, cid ∈ chanOf s c ↔ c ∈ subsOf s cid

/-- States reachable from a fresh server through the embedded hub
operations.  The registration step carries the freshness of the
hub-assigned connection id (`main.go` assigns a fresh uuid-derived id to
each accepted transport). -/
inductive Reachable : Server → Prop where
  | new (config : ServerConfig) : Reachable (NewServer config)
  | regConnect (s : Server) (fails : Connection → Bool) :
      Reachable s → Reachable (RegisterOnConnectHook s fails)
  | regDisconnect (s : Server) :
      Reachable s → Reachable (RegisterOnDisconnectHook s)
  | accept (s : Server) (connID userID : String) :
      Reachable s → lookupA s.connections connID = none →
      Reachable (handleConnection s connID userID).1
  | subscribe (s s2 : Server) (connID channel : String) :
      Reachable s → SubscribeToChannel s connID channel = Except.ok s2 →
      Reachable s2
  | unsubscribe (s s2 : Server) (connID channel : String) :
      Reachable s → UnsubscribeFromChannel s connID channel = Except.ok s2 →
      Reachable s2
  | remove (s : Server) (connID : String) :
      Reachable s → Reachable (removeConnection s connID).1
  | send (s : Server) (connID : String) (msg : Message) :
      Reachable s → Reachable (SendToConnection s connID msg).1
  | chat (s : Server) (conn : Connection) (msg : Message) :
      Reachable s → Reachable (ChatHandler s conn msg).1
  | groupChat (s : Server) (conn : Connection) (msg : Message) :
      Reachable s → Reachable (GroupChatHandler s conn msg).1
  | privateChat (s : Server) (conn : Connection) (msg : Message) :
      Reachable s → Reachable (PrivateChatHandler s conn msg).1
  | typing (s : Server) (conn : Connection) (msg : Message) :
      Reachable s → Reachable (TypingHandler s conn msg).1
  | presence (nano : Nat) (s : Server) (conn : Connection) (msg : Message) :
      Reachable s → Reachable (PresenceHandler nano s conn msg).1
  | route (s : Server) (conn : Connection) (msg : Message) :
      Reachable s → Reachable (routeMessage s conn msg).1

def srvC9 : Server :=
  { connections := [("A", { id := "A", userId := "alice", channels := [], outChan := [] })]
    connectionWSMap := ["A"]
    channels := []
    maxConnections := 10000
    hasOnConnectHook := false
    onConnectHookFails := fun _ => false
    hasOnDisconnectHook := false }

def srvC9sub : Server :=
  { connections := [("A", { id := "A", userId := "alice", channels := ["general"], outChan := [] })]
    connectionWSMap := ["A"]
    channels := [("general", ["A"])]
    maxConnections := 10000
    hasOnConnectHook := false
    onConnectHookFails := fun _ => false
    hasOnDisconnectHook := false }

def msgC2 : Message :=
  { id := "m2", type := "chat:group", sender := "alice", recipient := ""
    channel := "general", payload := some [], timestamp := 0 }

def connC2full : Connection :=
  { id := "X", userId := "xavier", channels := ["general"]
    outChan := List.replicate 100 msgC2 }

def srvC2 : Server :=
  { connections := [("X", connC2full)]
    connectionWSMap := ["X"]
    channels := [("general", ["X"])]
    maxConnections := 10000
    hasOnConnectHook := false
    onConnectHookFails := fun _ => false
    hasOnDisconnectHook := false }

def srvC5 : Server :=
  { connections :=
      [("A", { id := "A", userId := "alice", channels := [], outChan := [] }),
       ("B", { id := "B", userId := "bob", channels := [], outChan := [] })]
    connectionWSMap := ["A", "B"]
    channels := []
    maxConnections := 2
    hasOnConnectHook := true
    onConnectHookFails := fun _ => false
    hasOnDisconnectHook := true }

def srvC7 : Server :=
  { connections := [("A", { id := "A", userId := "alice", channels := ["dev"], outChan := [] })]
    connectionWSMap := ["A"]
    channels := [("dev", ["A"])]
    maxConnections := 10000
    hasOnConnectHook := false
    onConnectHookFails := fun _ => false
    hasOnDisconnectHook := true }

/-- One step of first-seen deduplication (the `seen`-guarded append of
GetActiveUsersInChannel). -/
def dedupStep (users : List String) (u : String) : List String :=
  if u ∈ users then users else users ++ [u]

/-- First-seen-order deduplication of a list. -/
def firstSeenDedup (l : List String) : List String :=
  l.foldl dedupStep []

/-- Specification-side definition, following the spec's words: the active
users of a channel are each distinct user appearing among the channel's
sessions, in first-seen order of the enumeration, with no duplicates. -/
def activeUsersSpec (s : Server) (channel : String) : List String :=
  firstSeenDedup
    (((lookupA s.channels channel).getD []).filterMap
      (fun cid => (lookupA s.connections cid).map (fun c => c.userId)))

def srvC8 : Server :=
  { connections :=
      [("A", { id := "A", userId := "alice", channels := ["dev"], outChan := [] }),
       ("B", { id := "B", userId := "bob", channels := ["dev"], outChan := [] }),
       ("A2", { id := "A2", userId := "alice", channels := ["dev"], outChan := [] })]
    connectionWSMap := ["A", "B", "A2"]
    channels := [("dev", ["A", "B", "A2"])]
    maxConnections := 10000
    hasOnConnectHook := false
    onConnectHookFails := fun _ => false
    hasOnDisconnectHook := false }

def connC1A : Connection :=
  { id := "A", userId := "alice", channels := ["general"], outChan := [] }

def connC1B : Connection :=
  { id := "B", userId := "bob", channels := ["general"], outChan := [] }

def srvC1 : Server :=
  { connections := [("A", connC1A), ("B", connC1B)]
    connectionWSMap := ["A", "B"]
    channels := [("general", ["A", "B"])]
    maxConnections := 10000
    hasOnConnectHook := false
    onConnectHookFails := fun _ => false
    hasOnDisconnectHook := false }

def msgC1 : Message :=
  { id := "m1", type := "chat:group", sender := "alice", recipient := ""
    channel := "general", payload := some [("content", PValue.str "hi")]
    timestamp := 1 }

def srvC4 : Server :=
  { connections :=
      [("A", { id := "A", userId := "alice", channels := [], outChan := [] }),
       ("B", { id := "B", userId := "bob", channels := [], outChan := [] })]
    connectionWSMap := ["A", "B"]
    channels := []
    maxConnections := 10000
    hasOnConnectHook := false
    onConnectHookFails := fun _ => false
    hasOnDisconnectHook := false }

def connC4A : Connection :=
  { id := "A", userId := "alice", channels := [], outChan := [] }

def msgC4 : Message :=
  { id := "m4", type := "chat", sender := "alice", recipient := "bob"
    channel := "", payload := some [("content", PValue.str "yo")]
    timestamp := 2 }

def connC6 : Connection :=
  { id := "S", userId := "alice", channels := [], outChan := [] }

def srvC6 : Server :=
  { connections := [("S", connC6)]
    connectionWSMap := ["S"]
    channels := []
    maxConnections := 10000
    hasOnConnectHook := false
    onConnectHookFails := fun _ => false
    hasOnDisconnectHook := false }

def msgC6 : Message :=
  { id := "m6", type := "system:presence", sender := "mallory", recipient := ""
    channel := "dev", payload := some [("action", PValue.str "join")]
    timestamp := 3 }

def srvC6sub : Server :=
  { connections := [("S", { id := "S", userId := "alice", channels := ["dev"], outChan := [] })]
    connectionWSMap := ["S"]
    channels := [("dev", ["S"])]
    maxConnections := 10000
    hasOnConnectHook := false
    onConnectHookFails := fun _ => false
    hasOnDisconnectHook := false }

/-! ## Theorems -/

theorem lookupA_insertA {α : Type} (m : List (String × α)) (k x : String) (v : α) :
    lookupA (insertA m k v) x = if k = x then some v else lookupA m x := by
  induction m with
  | nil => simp [insertA, lookupA]
  | cons kv t ih =>
    obtain ⟨k2, v2⟩ := kv
    simp only [insertA]
    by_cases h1 : k2 = k
    · subst h1
      by_cases h2 : k2 = x <;> simp [lookupA, h2]
    · rw [if_neg h1]
      simp only [lookupA, ih]
      by_cases h2 : k2 = x <;> by_cases h3 : k = x
      · exact absurd (h2.trans h3.symm) h1
      · simp [h2, h3]
      · simp [h2, h3]
      · simp [h2, h3]

theorem lookupA_eraseA {α : Type} (m : List (String × α)) (k x : String) :
    lookupA (eraseA m k) x = if k = x then none else lookupA m x := by
  induction m with
  | nil => simp [eraseA, lookupA]
  | cons kv t ih =>
    obtain ⟨k2, v2⟩ := kv
    simp only [eraseA]
    by_cases h1 : k2 = k
    · subst h1
      by_cases h2 : k2 = x
      · subst h2
        simp [lookupA, ih]
      · simp [lookupA, ih, h2]
    · rw [if_neg h1]
      simp only [lookupA, ih]
      by_cases h2 : k2 = x <;> by_cases h3 : k = x
      · exact absurd (h2.trans h3.symm) h1
      · simp [h2, h3]
      · simp [h2, h3]
      · simp [h2, h3]

theorem insertA_of_lookupA {α : Type} (m : List (String × α)) (k : String) (v : α)
    (h : lookupA m k = some v) : insertA m k v = m := by
  induction m with
  | nil => simp [lookupA] at h
  | cons kv t ih =>
    obtain ⟨k2, v2⟩ := kv
    by_cases h1 : k2 = k
    · rw [lookupA, if_pos h1] at h
      simp only [insertA, if_pos h1]
      simp at h
      rw [h]
    · rw [lookupA, if_neg h1] at h
      simp [insertA, h1, ih h]

theorem mem_insertSet (l : List String) (x y : String) :
    y ∈ insertSet l x ↔ y ∈ l ∨ y = x := by
  by_cases h : x ∈ l
  · rw [insertSet, if_pos h]
    constructor
    · exact Or.inl
    · rintro (hy | hy)
      · exact hy
      · exact hy ▸ h
  · rw [insertSet, if_neg h]
    simp

theorem insertSet_of_mem (l : List String) (x : String) (h : x ∈ l) :
    insertSet l x = l := by
  simp [insertSet, h]

theorem mem_eraseS (l : List String) (x y : String) :
    y ∈ eraseS l x ↔ y ∈ l ∧ y ≠ x := by
  induction l with
  | nil => simp [eraseS]
  | cons z t ih =>
    simp only [eraseS]
    by_cases h : z = x
    · rw [if_pos h, ih]
      subst h
      constructor
      · rintro ⟨hy, hne⟩
        exact ⟨List.mem_cons_of_mem _ hy, hne⟩
      · rintro ⟨hy, hne⟩
        rcases List.mem_cons.mp hy with hy | hy
        · exact absurd hy hne
        · exact ⟨hy, hne⟩
    · rw [if_neg h]
      constructor
      · intro hy
        rcases List.mem_cons.mp hy with hy | hy
        · subst hy
          exact ⟨List.mem_cons_self _ _, fun he => h he⟩
        · obtain ⟨h1, h2⟩ := ih.mp hy
          exact ⟨List.mem_cons_of_mem _ h1, h2⟩
      · rintro ⟨hy, hne⟩
        rcases List.mem_cons.mp hy with hy | hy
        · exact hy ▸ List.mem_cons_self _ _
        · exact List.mem_cons_of_mem _ (ih.mpr ⟨hy, hne⟩)

theorem eraseS_of_not_mem (l : List String) (x : String) (h : x ∉ l) :
    eraseS l x = l := by
  induction l with
  | nil => simp [eraseS]
  | cons z t ih =>
    have hzx : ¬ z = x := fun he => h (he ▸ List.mem_cons_self _ _)
    have hxt : x ∉ t := fun hm => h (List.mem_cons_of_mem _ hm)
    rw [eraseS, if_neg hzx, ih hxt]

theorem eraseS_idem (l : List String) (x : String) :
    eraseS (eraseS l x) x = eraseS l x := by
  apply eraseS_of_not_mem
  intro h
  exact ((mem_eraseS l x x).mp h).2 rfl

theorem topoInv_NewServer (config : ServerConfig) : TopoInv (NewServer config) := by
  intro cid c
  simp [NewServer, chanOf, subsOf, lookupA]

theorem topoInv_RegisterOnConnectHook (s : Server) (fails : Connection → Bool)
    (h : TopoInv s) : TopoInv (RegisterOnConnectHook s fails) := h

theorem topoInv_RegisterOnDisconnectHook (s : Server) (h : TopoInv s) :
    TopoInv (RegisterOnDisconnectHook s) := h

theorem SendToConnection_channels (s : Server) (connID : String) (msg : Message) :
    (SendToConnection s connID msg).1.channels = s.channels := by
  cases h : lookupA s.connections connID with
  | none => simp [SendToConnection, h]
  | some conn =>
    by_cases hlen : conn.outChan.length < outboxCapacity <;>
      simp [SendToConnection, h, hlen]

theorem subsOf_SendToConnection (s : Server) (connID : String) (msg : Message)
    (x : String) : subsOf (SendToConnection s connID msg).1 x = subsOf s x := by
  cases h : lookupA s.connections connID with
  | none => simp [SendToConnection, h]
  | some conn =>
    by_cases hlen : conn.outChan.length < outboxCapacity
    · by_cases hx : connID = x
      · subst hx
        simp [SendToConnection, h, hlen, subsOf, lookupA_insertA]
      · simp [SendToConnection, h, hlen, subsOf, lookupA_insertA, hx]
    · simp [SendToConnection, h, hlen]

theorem connUser_SendToConnection (s : Server) (connID : String) (msg : Message)
    (x : String) :
    (lookupA (SendToConnection s connID msg).1.connections x).map Connection.userId =
      (lookupA s.connections x).map Connection.userId := by
  cases h : lookupA s.connections connID with
  | none => simp [SendToConnection, h]
  | some conn =>
    by_cases hlen : conn.outChan.length < outboxCapacity
    · by_cases hx : connID = x
      · subst hx
        simp [SendToConnection, h, hlen, lookupA_insertA]
      · simp [SendToConnection, h, hlen, lookupA_insertA, hx]
    · simp [SendToConnection, h, hlen]

theorem topoInv_SendToConnection (s : Server) (cid : String) (m : Message)
    (h : TopoInv s) : TopoInv (SendToConnection s cid m).1 := by
  intro x c
  have h1 := SendToConnection_channels s cid m
  have h2 := subsOf_SendToConnection s cid m x
  rw [chanOf, h1, h2]
  exact h x c

theorem channels_foldl_send (l : List String) (s : Server) (msg : Message) :
    (l.foldl (fun st connID => (SendToConnection st connID msg).1) s).channels =
      s.channels := by
  induction l generalizing s with
  | nil => rfl
  | cons cid t ih =>
    rw [List.foldl_cons, ih, SendToConnection_channels]

theorem subsOf_foldl_send (l : List String) (s : Server) (msg : Message)
    (x : String) :
    subsOf (l.foldl (fun st connID => (SendToConnection st connID msg).1) s) x =
      subsOf s x := by
  induction l generalizing s with
  | nil => rfl
  | cons cid t ih =>
    rw [List.foldl_cons, ih, subsOf_SendToConnection]

theorem connUser_foldl_send (l : List String) (s : Server) (msg : Message)
    (x : String) :
    (lookupA (l.foldl (fun st connID => (SendToConnection st connID msg).1) s).connections x).map
        Connection.userId =
      (lookupA s.connections x).map Connection.userId := by
  induction l generalizing s with
  | nil => rfl
  | cons cid t ih =>
    rw [List.foldl_cons, ih, connUser_SendToConnection]

theorem topoInv_foldl_send (l : List String) (s : Server) (m : Message)
    (h : TopoInv s) :
    TopoInv (l.foldl (fun st connID => (SendToConnection st connID m).1) s) := by
  induction l generalizing s with
  | nil => exact h
  | cons cid t ih => exact ih _ (topoInv_SendToConnection s cid m h)

theorem topoInv_broadcastToChannel (s : Server) (c : String) (m : Message)
    (o : BroadcastOptions) (h : TopoInv s) : TopoInv (broadcastToChannel s c m o).1 := by
  cases hc : lookupA s.channels c with
  | none => simpa [broadcastToChannel, hc] using h
  | some connIDs =>
    simpa [broadcastToChannel, hc] using topoInv_foldl_send connIDs s m h

theorem topoInv_broadcastAll (s : Server) (m : Message) (o : BroadcastOptions)
    (h : TopoInv s) : TopoInv (broadcastAll s m o).1 := by
  simpa [broadcastAll] using
    topoInv_foldl_send (s.connections.map (fun kv => kv.1)) s m h

theorem sendToUser_state (s : Server) (userID : String) (msg : Message) :
    (sendToUser s userID msg).1 = s := rfl

theorem topoInv_SubscribeToChannel (s s2 : Server) (connID channel : String)
    (hinv : TopoInv s) (h : SubscribeToChannel s connID channel = Except.ok s2) :
    TopoInv s2 := by
  cases hc : lookupA s.connections connID with
  | none => simp [SubscribeToChannel, hc] at h
  | some conn =>
    simp only [SubscribeToChannel, hc, Except.ok.injEq] at h
    subst h
    intro x c
    simp only [chanOf, subsOf, lookupA_insertA]
    by_cases hc2 : channel = c <;> by_cases hx : connID = x
    · subst hc2; subst hx
      simp [mem_insertSet]
    · subst hc2
      have hx2 : ¬ x = connID := fun he => hx he.symm
      have hbase := hinv x channel
      simp only [chanOf, subsOf] at hbase
      simp [hx, mem_insertSet, hx2, hbase]
    · subst hx
      have hc3 : ¬ c = channel := fun he => hc2 he.symm
      have hbase := hinv connID c
      simp only [chanOf, subsOf, hc, Option.map_some', Option.getD_some] at hbase
      simp [hc2, mem_insertSet, hc3, hbase]
    · simp only [if_neg hc2, if_neg hx]
      exact hinv x c

theorem topoInv_UnsubscribeFromChannel (s s2 : Server) (connID channel : String)
    (hinv : TopoInv s) (h : UnsubscribeFromChannel s connID channel = Except.ok s2) :
    TopoInv s2 := by
  cases hc : lookupA s.connections connID with
  | none => simp [UnsubscribeFromChannel, hc] at h
  | some conn =>
    simp only [UnsubscribeFromChannel, hc, Except.ok.injEq] at h
    have hconn : s2.connections = insertA s.connections connID
        { conn with channels := eraseS conn.channels channel } := by
      rw [← h]
    have hsub : ∀ x, subsOf s2 x =
        if connID = x then eraseS conn.channels channel else subsOf s x := by
      intro x
      by_cases hx : connID = x <;>
        simp [subsOf, hconn, lookupA_insertA, hx]
    have hchan : ∀ c, chanOf s2 c =
        if channel = c then eraseS (chanOf s channel) connID else chanOf s c := by
      intro c
      cases hcc : lookupA s.channels channel with
      | none =>
        have hs : s2.channels = s.channels := by
          rw [← h]; simp [hcc]
        by_cases h2 : channel = c
        · subst h2
          simp [chanOf, hs, hcc, eraseS]
        · simp [chanOf, hs, h2]
      | some set =>
        by_cases he : (eraseS set connID).isEmpty
        · have hnil : eraseS set connID = [] := by simpa using he
          have hs : s2.channels = eraseA s.channels channel := by
            rw [← h]; simp [hcc, he]
          by_cases h2 : channel = c
          · subst h2
            simp [chanOf, hs, lookupA_eraseA, hcc, hnil]
          · simp [chanOf, hs, lookupA_eraseA, h2]
        · have hs : s2.channels = insertA s.channels channel (eraseS set connID) := by
            rw [← h]; simp [hcc, he]
          by_cases h2 : channel = c
          · subst h2
            simp [chanOf, hs, lookupA_insertA, hcc]
          · simp [chanOf, hs, lookupA_insertA, h2]
    intro x c
    rw [hchan c, hsub x]
    by_cases h2 : channel = c <;> by_cases hx : connID = x
    · subst h2; subst hx
      simp [mem_eraseS]
    · subst h2
      have hx2 : ¬ x = connID := fun he2 => hx he2.symm
      have hbase := hinv x channel
      simp [mem_eraseS, hx, hx2, hbase]
    · subst hx
      have hc3 : ¬ c = channel := fun he2 => h2 he2.symm
      have hbase := hinv connID c
      simp only [subsOf, hc, Option.map_some', Option.getD_some] at hbase
      simp [h2, mem_eraseS, hc3, hbase]
    · simp only [if_neg h2, if_neg hx]
      exact hinv x c

theorem getD_removeChannelEntry (m : List (String × List String))
    (connID c0 c : String) :
    (lookupA (removeChannelEntry m connID c0) c).getD [] =
      if c0 = c then eraseS ((lookupA m c).getD []) connID
      else (lookupA m c).getD [] := by
  cases hcc : lookupA m c0 with
  | none =>
    simp only [removeChannelEntry, hcc]
    by_cases h2 : c0 = c
    · subst h2
      simp [hcc, eraseS]
    · simp [h2]
  | some set =>
    by_cases he : (eraseS set connID).isEmpty
    · have hnil : eraseS set connID = [] := by simpa using he
      have hred : removeChannelEntry m connID c0 = eraseA m c0 := by
        simp [removeChannelEntry, hcc, he]
      rw [hred, lookupA_eraseA]
      by_cases h2 : c0 = c
      · subst h2
        simp [hcc, hnil]
      · simp [h2]
    · have hred : removeChannelEntry m connID c0 =
          insertA m c0 (eraseS set connID) := by
        simp [removeChannelEntry, hcc, he]
      rw [hred, lookupA_insertA]
      by_cases h2 : c0 = c
      · subst h2
        simp [hcc]
      · simp [h2]

theorem getD_removeFromChannels (chans : List (String × List String))
    (connID : String) (cs : List String) (c : String) :
    (lookupA (removeFromChannels chans connID cs) c).getD [] =
      if c ∈ cs then eraseS ((lookupA chans c).getD []) connID
      else (lookupA chans c).getD [] := by
  induction cs generalizing chans with
  | nil => simp [removeFromChannels]
  | cons c0 t ih =>
    have hstep := getD_removeChannelEntry chans connID c0 c
    have hfold : removeFromChannels chans connID (c0 :: t) =
        removeFromChannels (removeChannelEntry chans connID c0) connID t := rfl
    rw [hfold, ih]
    by_cases h1 : c ∈ t
    · rw [if_pos h1, hstep, if_pos (List.mem_cons_of_mem c0 h1)]
      by_cases h2 : c0 = c
      · rw [if_pos h2, eraseS_idem]
      · rw [if_neg h2]
    · rw [if_neg h1, hstep]
      by_cases h2 : c0 = c
      · rw [if_pos h2, if_pos (List.mem_cons.mpr (Or.inl h2.symm))]
      · have hnc : c ∉ c0 :: t := by
          intro hmem
          rcases List.mem_cons.mp hmem with hm | hm
          · exact h2 hm.symm
          · exact h1 hm
        rw [if_neg h2, if_neg hnc]

theorem chanOf_removeConnection (s : Server) (connID : String) (conn : Connection)
    (hc : lookupA s.connections connID = some conn) (c : String) :
    chanOf (removeConnection s connID).1 c =
      if c ∈ conn.channels then eraseS (chanOf s c) connID else chanOf s c := by
  simp only [removeConnection, hc, chanOf]
  exact getD_removeFromChannels s.channels connID conn.channels c

theorem subsOf_removeConnection (s : Server) (connID : String) (conn : Connection)
    (hc : lookupA s.connections connID = some conn) (x : String) :
    subsOf (removeConnection s connID).1 x =
      if connID = x then [] else subsOf s x := by
  by_cases hx : connID = x
  · subst hx
    simp [removeConnection, hc, subsOf, lookupA_eraseA]
  · simp [removeConnection, hc, subsOf, lookupA_eraseA, hx]

theorem topoInv_removeConnection (s : Server) (connID : String)
    (h : TopoInv s) : TopoInv (removeConnection s connID).1 := by
  cases hc : lookupA s.connections connID with
  | none => simpa [removeConnection, hc] using h
  | some conn =>
    intro x c
    rw [chanOf_removeConnection s connID conn hc c,
      subsOf_removeConnection s connID conn hc x]
    have hsubconn : subsOf s connID = conn.channels := by simp [subsOf, hc]
    by_cases hcc : c ∈ conn.channels <;> by_cases hx : connID = x
    · subst hx
      simp [hcc, mem_eraseS]
    · have hx2 : ¬ x = connID := fun he2 => hx he2.symm
      have hbase := h x c
      simp [hcc, hx, mem_eraseS, hx2, hbase]
    · subst hx
      have hbase := h connID c
      rw [hsubconn] at hbase
      simp [hcc, hbase]
    · simp only [if_neg hcc, if_neg hx]
      exact h x c

theorem topoInv_handleConnection (s : Server) (connID userID : String)
    (hfresh : lookupA s.connections connID = none) (h : TopoInv s) :
    TopoInv (handleConnection s connID userID).1 := by
  by_cases hcap : s.connections.length ≥ s.maxConnections
  · simpa [handleConnection, hcap] using h
  · have h1 : TopoInv { s with
        connections := insertA s.connections connID
          { id := connID, userId := userID, channels := [], outChan := [] }
        connectionWSMap := insertSet s.connectionWSMap connID } := by
      intro x c
      simp only [chanOf, subsOf, lookupA_insertA]
      by_cases hx : connID = x
      · subst hx
        have hbase := h connID c
        simp only [chanOf, subsOf, hfresh] at hbase
        simpa using hbase
      · simp only [if_neg hx]
        exact h x c
    by_cases hhook : s.hasOnConnectHook
    · by_cases hfail : s.onConnectHookFails
          { id := connID, userId := userID, channels := [], outChan := [] }
      · have h2 := topoInv_removeConnection _ connID h1
        simpa [handleConnection, hcap, hhook, hfail] using h2
      · simpa [handleConnection, hcap, hhook, hfail] using h1
    · simpa [handleConnection, hcap, hhook] using h1

theorem topoInv_ChatHandler (s : Server) (conn : Connection) (m : Message)
    (h : TopoInv s) : TopoInv (ChatHandler s conn m).1 := by
  cases hp : m.payload with
  | none => simpa [ChatHandler, hp] using h
  | some p =>
    by_cases hr : m.recipient ≠ ""
    · simpa [ChatHandler, hp, hr, sendToUser] using h
    · by_cases hch : m.channel ≠ ""
      · have h2 := topoInv_broadcastToChannel s m.channel m { excludeConnID := true } h
        simpa [ChatHandler, hp, hr, hch] using h2
      · simpa [ChatHandler, hp, hr, hch] using h

theorem topoInv_GroupChatHandler (s : Server) (conn : Connection) (m : Message)
    (h : TopoInv s) : TopoInv (GroupChatHandler s conn m).1 := by
  by_cases hch : m.channel = ""
  · simpa [GroupChatHandler, hch] using h
  · have h2 := topoInv_broadcastToChannel s m.channel m { excludeConnID := true } h
    simpa [GroupChatHandler, hch] using h2

theorem topoInv_PrivateChatHandler (s : Server) (conn : Connection) (m : Message)
    (h : TopoInv s) : TopoInv (PrivateChatHandler s conn m).1 := by
  by_cases hr : m.recipient = ""
  · simpa [PrivateChatHandler, hr] using h
  · simpa [PrivateChatHandler, hr, sendToUser] using h

theorem topoInv_TypingHandler (s : Server) (conn : Connection) (m : Message)
    (h : TopoInv s) : TopoInv (TypingHandler s conn m).1 := by
  by_cases hch : m.channel ≠ ""
  · have h2 := topoInv_broadcastToChannel s m.channel m { excludeConnID := false } h
    simpa [TypingHandler, hch] using h2
  · by_cases hr : m.recipient ≠ ""
    · simpa [TypingHandler, hch, hr, sendToUser] using h
    · simpa [TypingHandler, hch, hr] using h

theorem topoInv_presenceBroadcast (nano : Nat) (s : Server) (m : Message)
    (h : TopoInv s) : TopoInv (presenceBroadcast nano s m).1 := by
  have h2 := topoInv_broadcastToChannel s m.channel
    { id := generateMessageID nano
      type := "system:presence"
      sender := "system"
      recipient := ""
      channel := m.channel
      payload := some [("users", PValue.strList (GetActiveUsersInChannel s m.channel))]
      timestamp := m.timestamp } {} h
  simpa [presenceBroadcast] using h2

theorem topoInv_PresenceHandler (nano : Nat) (s : Server) (conn : Connection)
    (m : Message) (h : TopoInv s) : TopoInv (PresenceHandler nano s conn m).1 := by
  by_cases hcond : payloadGetString m.payload "action" = some "join" ∧ m.channel ≠ ""
  · cases hsub : SubscribeToChannel s conn.id m.channel with
    | error e => simpa [PresenceHandler, hcond, hsub] using h
    | ok s1 =>
      have h1 := topoInv_SubscribeToChannel s s1 conn.id m.channel h hsub
      have h2 := topoInv_broadcastToChannel s1 m.channel
        { id := generateMessageID nano
          type := "system:user_joined"
          sender := "system"
          recipient := ""
          channel := m.channel
          payload := some [("user", PValue.str m.sender)]
          timestamp := m.timestamp } {} h1
      have h3 := topoInv_presenceBroadcast (nano + 1) _ m h2
      simpa [PresenceHandler, hcond, hsub] using h3
  · have h3 := topoInv_presenceBroadcast nano s m h
    simpa [PresenceHandler, hcond] using h3

theorem topoInv_routeMessage (s : Server) (conn : Connection) (m : Message)
    (h : TopoInv s) : TopoInv (routeMessage s conn m).1 := by
  by_cases hr : m.recipient ≠ ""
  · simpa [routeMessage, hr, sendToUser] using h
  · by_cases hch : m.channel ≠ ""
    · have h2 := topoInv_broadcastToChannel s m.channel m { excludeConnID := true } h
      simpa [routeMessage, hr, hch] using h2
    · have h2 := topoInv_broadcastAll s m {} h
      simpa [routeMessage, hr, hch] using h2

theorem topoInv_of_reachable (s : Server) (h : Reachable s) : TopoInv s := by
  induction h with
  | new config => exact topoInv_NewServer config
  | regConnect s fails _ ih => exact topoInv_RegisterOnConnectHook s fails ih
  | regDisconnect s _ ih => exact topoInv_RegisterOnDisconnectHook s ih
  | accept s connID userID _ hfresh ih =>
    exact topoInv_handleConnection s connID userID hfresh ih
  | subscribe s s2 connID channel _ hok ih =>
    exact topoInv_SubscribeToChannel s s2 connID channel ih hok
  | unsubscribe s s2 connID channel _ hok ih =>
    exact topoInv_UnsubscribeFromChannel s s2 connID channel ih hok
  | remove s connID _ ih => exact topoInv_removeConnection s connID ih
  | send s connID msg _ ih => exact topoInv_SendToConnection s connID msg ih
  | chat s conn msg _ ih => exact topoInv_ChatHandler s conn msg ih
  | groupChat s conn msg _ ih => exact topoInv_GroupChatHandler s conn msg ih
  | privateChat s conn msg _ ih => exact topoInv_PrivateChatHandler s conn msg ih
  | typing s conn msg _ ih => exact topoInv_TypingHandler s conn msg ih
  | presence nano s conn msg _ ih => exact topoInv_PresenceHandler nano s conn msg ih
  | route s conn msg _ ih => exact topoInv_routeMessage s conn msg ih

/-- C3: in every reachable registry state, a connection id is a member of
the channel set `channels[c]` exactly when `c` is in that connection's
`Channels` set, and every registry operation — subscribe, unsubscribe,
connection removal, together with registration and the enqueue and handler
operations that touch the registry — preserves this bidirectional
invariant. -/
theorem registry_bimap_invariant (s : Server) (h : Reachable s) : TopoInv s :=
  topoInv_of_reachable s h

/-- Witness for C3: the invariant holds at a concrete reachable state — a
fresh server that accepted one connection. -/
theorem registry_bimap_invariant_witness :
    TopoInv (handleConnection (NewServer {}) "conn_a" "alice").1 :=
  registry_bimap_invariant _
    (Reachable.accept (NewServer {}) "conn_a" "alice" (Reachable.new {}) rfl)

/-- C9: subscribing a registered connection twice in succession to the same
channel returns ok the second time and leaves the registry — the
connection's channel set and the channel-to-connection index — exactly as
after the first subscribe. -/
theorem subscribe_idempotent (s s1 : Server) (connID channel : String)
    (h : SubscribeToChannel s connID channel = Except.ok s1) :
    SubscribeToChannel s1 connID channel = Except.ok s1 := by
  cases hc : lookupA s.connections connID with
  | none => simp [SubscribeToChannel, hc] at h
  | some conn =>
    simp only [SubscribeToChannel, hc, Except.ok.injEq] at h
    have hconn1 : lookupA s1.connections connID =
        some { conn with channels := insertSet conn.channels channel } := by
      rw [← h]; simp [lookupA_insertA]
    have hchan1 : lookupA s1.channels channel =
        some (insertSet ((lookupA s.channels channel).getD []) connID) := by
      rw [← h]; simp [lookupA_insertA]
    have e1 : insertSet (insertSet conn.channels channel) channel =
        insertSet conn.channels channel :=
      insertSet_of_mem _ _ ((mem_insertSet _ _ _).mpr (Or.inr rfl))
    have e2 : insertSet
        (insertSet ((lookupA s.channels channel).getD []) connID) connID =
        insertSet ((lookupA s.channels channel).getD []) connID :=
      insertSet_of_mem _ _ ((mem_insertSet _ _ _).mpr (Or.inr rfl))
    simp only [SubscribeToChannel, hconn1, hchan1, Option.getD_some, e1, e2,
      Except.ok.injEq]
    rw [insertA_of_lookupA _ _ _ hconn1, insertA_of_lookupA _ _ _ hchan1]

/-- Witness for C9 at a concrete one-connection server. -/
theorem subscribe_idempotent_witness :
    SubscribeToChannel srvC9sub "A" "general" = Except.ok srvC9sub :=
  subscribe_idempotent srvC9 srvC9sub "A" "general" rfl

/-- C2: enqueueing onto a registered destination session's outbox never
blocks the caller: the capacity is 100; with a free slot the envelope is
appended to that outbox and the call succeeds, and with 100 pending
envelopes the call reports failure and leaves the state — in particular
that outbox — unchanged. -/
theorem outbox_enqueue_drop_policy (s : Server) (connID : String) (msg : Message)
    (conn : Connection) (h : lookupA s.connections connID = some conn) :
    outboxCapacity = 100 ∧
    (conn.outChan.length < outboxCapacity →
      SendToConnection s connID msg =
        ({ s with
            connections :=
              insertA s.connections connID
                { conn with outChan := conn.outChan ++ [msg] } },
          Except.ok ())) ∧
    (conn.outChan.length = outboxCapacity →
      SendToConnection s connID msg =
        (s, Except.error ("outgoing message channel full for connection: " ++ connID))) := by
  refine ⟨rfl, ?_, ?_⟩
  · intro hlt
    simp [SendToConnection, h, hlt]
  · intro heq
    have hnlt : ¬ conn.outChan.length < outboxCapacity := by
      rw [heq]; exact lt_irrefl _
    simp [SendToConnection, h, hnlt]

/-- Witness for C2 at a destination whose outbox holds 100 pending
envelopes: the 101st enqueue is dropped with an error and no state
change. -/
theorem outbox_enqueue_drop_policy_witness :
    SendToConnection srvC2 "X" msgC2 =
      (srvC2, Except.error ("outgoing message channel full for connection: " ++ "X")) :=
  (outbox_enqueue_drop_policy srvC2 "X" msgC2 connC2full rfl).2.2 (by decide)

/-- C5: an admission attempt arriving with the registered-connection count
at or above the ceiling is refused — the call errors, the transport is
closed, the state (in particular the connection map) is unchanged, and
neither lifecycle hook is invoked; a zero `MaxConnections` configuration
defaults the ceiling to 10000. -/
theorem admission_refused (s : Server) (connID userID : String)
    (h : s.connections.length ≥ s.maxConnections) :
    handleConnection s connID userID =
      (s, [Event.wsClose], Except.error "max connections reached") ∧
    (NewServer {}).maxConnections = 10000 := by
  refine ⟨?_, rfl⟩
  simp [handleConnection, h]

/-- Witness for C5: with ceiling 2 and two registered connections, a third
admission is refused without invoking any hook. -/
theorem admission_refused_witness :
    handleConnection srvC5 "C" "carol" =
      (srvC5, [Event.wsClose], Except.error "max connections reached") :=
  (admission_refused srvC5 "C" "carol" (by decide)).1

/-- C7: removing a registered session invokes the disconnect hook exactly
once, passing the still-registered session, and the removal marker follows
the hook invocation; afterwards the session is absent from the connection
map and from every channel set, and a second removal of the same id is a
no-op that emits no events, so the hook is not re-invoked. -/
theorem disconnect_hook_once (s : Server) (connID : String) (conn : Connection)
    (hreg : lookupA s.connections connID = some conn)
    (hhook : s.hasOnDisconnectHook = true)
    (hinv : TopoInv s) :
    (removeConnection s connID).2 =
      [Event.onDisconnectHook conn, Event.removed connID] ∧
    lookupA (removeConnection s connID).1.connections connID = none ∧
    (∀ c, connID ∉ chanOf (removeConnection s connID).1 c) ∧
    removeConnection (removeConnection s connID).1 connID =
      ((removeConnection s connID).1, []) := by
  have hlook : lookupA (removeConnection s connID).1.connections connID = none := by
    simp [removeConnection, hreg, lookupA_eraseA]
  refine ⟨?_, hlook, ?_, ?_⟩
  · simp [removeConnection, hreg, hhook]
  · intro c
    rw [chanOf_removeConnection s connID conn hreg c]
    by_cases hcc : c ∈ conn.channels
    · rw [if_pos hcc]
      intro hmem
      exact ((mem_eraseS _ _ _).mp hmem).2 rfl
    · rw [if_neg hcc]
      intro hmem
      have hsubm := (hinv connID c).mp hmem
      simp [subsOf, hreg] at hsubm
      exact hcc hsubm
  · have hstate : (removeConnection s connID).1 = { s with
        connections := eraseA s.connections connID
        connectionWSMap := eraseS s.connectionWSMap connID
        channels := removeFromChannels s.channels connID conn.channels } := by
      simp [removeConnection, hreg]
    rw [hstate]
    simp [removeConnection, lookupA_eraseA]

theorem srvC7_inv : TopoInv srvC7 := by
  have h0 := topoInv_RegisterOnDisconnectHook _ (topoInv_NewServer {})
  have h1 := topoInv_handleConnection (RegisterOnDisconnectHook (NewServer {}))
    "A" "alice" rfl h0
  exact topoInv_SubscribeToChannel _ srvC7 "A" "dev" h1 rfl

/-- Witness for C7 at a concrete one-connection server with a registered
disconnect hook. -/
theorem disconnect_hook_once_witness :
    (removeConnection srvC7 "A").2 =
      [Event.onDisconnectHook { id := "A", userId := "alice", channels := ["dev"], outChan := [] },
        Event.removed "A"] ∧
    lookupA (removeConnection srvC7 "A").1.connections "A" = none ∧
    (∀ c, "A" ∉ chanOf (removeConnection srvC7 "A").1 c) ∧
    removeConnection (removeConnection srvC7 "A").1 "A" =
      ((removeConnection srvC7 "A").1, []) :=
  disconnect_hook_once srvC7 "A" _ rfl rfl srvC7_inv

theorem foldl_active_eq (s : Server) (connIDs : List String) (acc : List String) :
    connIDs.foldl
      (fun users connID =>
        match lookupA s.connections connID with
        | none => users
        | some conn =>
          if conn.userId ∈ users then users else users ++ [conn.userId]) acc =
    (connIDs.filterMap
      (fun cid => (lookupA s.connections cid).map (fun c => c.userId))).foldl
        dedupStep acc := by
  induction connIDs generalizing acc with
  | nil => rfl
  | cons cid t ih =>
    cases hc : lookupA s.connections cid with
    | none =>
      simp only [List.foldl_cons, List.filterMap_cons, hc, Option.map_none']
      exact ih acc
    | some conn =>
      simp only [List.foldl_cons, List.filterMap_cons, hc, Option.map_some']
      exact ih (dedupStep acc conn.userId)

theorem mem_foldl_dedupStep (l acc : List String) (x : String) :
    x ∈ l.foldl dedupStep acc ↔ x ∈ acc ∨ x ∈ l := by
  induction l generalizing acc with
  | nil => simp
  | cons u t ih =>
    rw [List.foldl_cons, ih]
    by_cases hu : u ∈ acc
    · simp only [dedupStep, if_pos hu, List.mem_cons]
      constructor
      · rintro (h | h)
        · exact Or.inl h
        · exact Or.inr (Or.inr h)
      · rintro (h | h | h)
        · exact Or.inl h
        · exact Or.inl (h ▸ hu)
        · exact Or.inr h
    · simp only [dedupStep, if_neg hu, List.mem_append, List.mem_singleton,
        List.mem_cons]
      tauto

theorem nodup_foldl_dedupStep (l acc : List String) (h : acc.Nodup) :
    (l.foldl dedupStep acc).Nodup := by
  induction l generalizing acc with
  | nil => exact h
  | cons u t ih =>
    rw [List.foldl_cons]
    apply ih
    by_cases hu : u ∈ acc
    · simpa [dedupStep, hu] using h
    · simp [dedupStep, hu, List.nodup_append, h]

/-- C8: `GetActiveUsersInChannel` returns exactly the spec-side
first-seen-order deduplication of the channel's session user ids: it
contains precisely the user ids with at least one session subscribed to the
channel, each listed exactly once, and an absent channel yields the empty
list. -/
theorem active_users_correct (s : Server) (channel : String)
    (hinv : TopoInv s) :
    GetActiveUsersInChannel s channel = activeUsersSpec s channel ∧
    (GetActiveUsersInChannel s channel).Nodup ∧
    (∀ u, u ∈ GetActiveUsersInChannel s channel ↔
      ∃ cid conn, lookupA s.connections cid = some conn ∧
        conn.userId = u ∧ channel ∈ conn.channels) ∧
    (lookupA s.channels channel = none →
      GetActiveUsersInChannel s channel = []) := by
  cases hc : lookupA s.channels channel with
  | none =>
    have hempty : GetActiveUsersInChannel s channel = [] := by
      simp [GetActiveUsersInChannel, hc]
    refine ⟨?_, ?_, ?_, fun _ => hempty⟩
    · simp [hempty, activeUsersSpec, hc, firstSeenDedup]
    · simp [hempty]
    · intro u
      rw [hempty]
      simp only [List.not_mem_nil, false_iff]
      rintro ⟨cid, conn, hl, hu, hch⟩
      have hmem : cid ∈ chanOf s channel := by
        apply (hinv cid channel).mpr
        simp [subsOf, hl, hch]
      rw [chanOf, hc] at hmem
      simp at hmem
  | some connIDs =>
    have heq : GetActiveUsersInChannel s channel =
        firstSeenDedup (connIDs.filterMap
          (fun cid => (lookupA s.connections cid).map (fun c => c.userId))) := by
      simp only [GetActiveUsersInChannel, hc]
      exact foldl_active_eq s connIDs []
    have hspec : activeUsersSpec s channel =
        firstSeenDedup (connIDs.filterMap
          (fun cid => (lookupA s.connections cid).map (fun c => c.userId))) := by
      simp [activeUsersSpec, hc]
    refine ⟨heq.trans hspec.symm, ?_, ?_, ?_⟩
    · rw [heq]
      exact nodup_foldl_dedupStep _ _ List.nodup_nil
    · intro u
      rw [heq, firstSeenDedup, mem_foldl_dedupStep]
      simp only [List.not_mem_nil, false_or, List.mem_filterMap,
        Option.map_eq_some']
      constructor
      · rintro ⟨cid, hcid, conn, hl, hu⟩
        refine ⟨cid, conn, hl, hu, ?_⟩
        have hmem : cid ∈ chanOf s channel := by
          rw [chanOf, hc]
          exact hcid
        have := (hinv cid channel).mp hmem
        simpa [subsOf, hl] using this
      · rintro ⟨cid, conn, hl, hu, hch⟩
        have hmem : cid ∈ chanOf s channel := by
          apply (hinv cid channel).mpr
          simp [subsOf, hl, hch]
        rw [chanOf, hc] at hmem
        exact ⟨cid, by simpa using hmem, conn, hl, hu⟩
    · intro hnone
      simp [hc] at hnone

theorem srvC8_inv : TopoInv srvC8 :=
  topoInv_of_reachable srvC8
    (Reachable.subscribe _ srvC8 "A2" "dev"
      (Reachable.subscribe _ _ "B" "dev"
        (Reachable.subscribe _ _ "A" "dev"
          (Reachable.accept _ "A2" "alice"
            (Reachable.accept _ "B" "bob"
              (Reachable.accept _ "A" "alice" (Reachable.new {}) rfl)
              rfl)
            rfl)
          rfl)
        rfl)
      rfl)

/-- Witness for C8: two users across three sessions of channel `dev`; the
list is deduplicated in first-seen order. -/
theorem active_users_correct_witness :
    GetActiveUsersInChannel srvC8 "dev" = ["alice", "bob"] ∧
    (GetActiveUsersInChannel srvC8 "dev").Nodup ∧
    GetActiveUsersInChannel srvC8 "dev" = activeUsersSpec srvC8 "dev" :=
  ⟨by decide, (active_users_correct srvC8 "dev" srvC8_inv).2.1,
    (active_users_correct srvC8 "dev" srvC8_inv).1⟩

/-- C1 (code bug): GroupChatHandler asks for the originating session to be
excluded (`ExcludeConnID: true`), but `broadcastToChannel` never reads its
options, so the fan-out reaches every member of the channel including the
originator: after A's own group message is handled, A's outbox holds a
copy of it (as does B's). -/
theorem group_fanout_includes_origin :
    (GroupChatHandler srvC1 connC1A msgC1).2.2 = Except.ok () ∧
    (lookupA (GroupChatHandler srvC1 connC1A msgC1).1.connections "A").map
      Connection.outChan = some [msgC1] ∧
    (lookupA (GroupChatHandler srvC1 connC1A msgC1).1.connections "B").map
      Connection.outChan = some [msgC1] :=
  ⟨rfl, rfl, rfl⟩

/-- C4 counterexample: a `chat` envelope with an empty channel and a set
recipient is not dropped with an error — ChatHandler returns nil and
performs a direct-to-user fan-out (a websocket write to B's session). -/
theorem chat_empty_channel_counterexample :
    (ChatHandler srvC4 connC4A msgC4).2.2 = Except.ok () ∧
    (ChatHandler srvC4 connC4A msgC4).2.1 = [Event.wsWrite "B" msgC4] :=
  ⟨rfl, rfl⟩

/-- C4 (amended): for `chat:group` an empty channel is dropped with an
error and no fan-out regardless of the recipient field; for `chat` an empty
channel is not an error — with non-nil payload the handler returns nil,
routing to the recipient's user sessions when a recipient is set and doing
nothing when both routing fields are empty. -/
theorem chat_empty_channel_amended (s : Server) (conn : Connection)
    (msg : Message) :
    (msg.channel = "" →
      GroupChatHandler s conn msg =
        (s, [], Except.error "channel is required for group chat messages")) ∧
    (msg.payload ≠ none → msg.channel = "" → msg.recipient ≠ "" →
      (ChatHandler s conn msg).2.2 = Except.ok () ∧
      (ChatHandler s conn msg).1 = s ∧
      (ChatHandler s conn msg).2.1 = (sendToUser s msg.recipient msg).2.1) ∧
    (msg.payload ≠ none → msg.channel = "" → msg.recipient = "" →
      ChatHandler s conn msg = (s, [], Except.ok ())) := by
  refine ⟨?_, ?_, ?_⟩
  · intro hch
    simp [GroupChatHandler, hch]
  · intro hp hchv hr
    cases hpv : msg.payload with
    | none => exact absurd hpv hp
    | some p =>
      refine ⟨?_, ?_, ?_⟩ <;> simp [ChatHandler, hpv, hr, sendToUser]
  · intro hp hchv hr
    cases hpv : msg.payload with
    | none => exact absurd hpv hp
    | some p =>
      simp [ChatHandler, hpv, hr, hchv]

/-- Witness for C4's amended claim at concrete envelopes. -/
theorem chat_empty_channel_amended_witness :
    GroupChatHandler srvC4 connC4A { msgC4 with type := "chat:group" } =
      (srvC4, [], Except.error "channel is required for group chat messages") ∧
    (ChatHandler srvC4 connC4A msgC4).2.2 = Except.ok () ∧
    (ChatHandler srvC4 connC4A msgC4).1 = srvC4 :=
  ⟨(chat_empty_channel_amended srvC4 connC4A _).1 rfl,
    ((chat_empty_channel_amended srvC4 connC4A msgC4).2.1
      (by decide) rfl (by decide)).1,
    ((chat_empty_channel_amended srvC4 connC4A msgC4).2.1
      (by decide) rfl (by decide)).2.1⟩

/-- C10: user-directed delivery via `sendToUser` — the path taken by
chat:private, by chat with a recipient, by typing with a recipient and no
channel, and by the default direct route — leaves the server state (hence
every session's outbox) unchanged and always returns success, so it is
never subject to the outbox capacity-100 drop policy. -/
theorem sendToUser_frame (s : Server) (conn : Connection) (userID : String)
    (msg : Message) :
    (sendToUser s userID msg).1 = s ∧
    (sendToUser s userID msg).2.2 = Except.ok () ∧
    (msg.recipient ≠ "" →
      (PrivateChatHandler s conn msg).1 = s ∧
      (PrivateChatHandler s conn msg).2.2 = Except.ok ()) ∧
    (msg.payload ≠ none → msg.recipient ≠ "" →
      (ChatHandler s conn msg).1 = s ∧
      (ChatHandler s conn msg).2.2 = Except.ok ()) ∧
    (msg.channel = "" → msg.recipient ≠ "" →
      (TypingHandler s conn msg).1 = s ∧
      (TypingHandler s conn msg).2.2 = Except.ok ()) ∧
    (msg.recipient ≠ "" → (routeMessage s conn msg).1 = s) := by
  refine ⟨rfl, rfl, ?_, ?_, ?_, ?_⟩
  · intro hr
    constructor <;> simp [PrivateChatHandler, hr, sendToUser]
  · intro hp hr
    cases hpv : msg.payload with
    | none => exact absurd hpv hp
    | some p => constructor <;> simp [ChatHandler, hpv, hr, sendToUser]
  · intro hchv hr
    constructor <;> simp [TypingHandler, hchv, hr, sendToUser]
  · intro hr
    simp [routeMessage, hr, sendToUser]

/-- Witness for C10 at a concrete private chat envelope. -/
theorem sendToUser_frame_witness :
    (PrivateChatHandler srvC4 connC4A { msgC4 with type := "chat:private" }).1 =
      srvC4 ∧
    (PrivateChatHandler srvC4 connC4A { msgC4 with type := "chat:private" }).2.2 =
      Except.ok () :=
  (sendToUser_frame srvC4 connC4A "bob"
    { msgC4 with type := "chat:private" }).2.2.1 (by decide)

theorem activeUsers_congr (s1 s2 : Server) (channel : String)
    (hch : s2.channels = s1.channels)
    (hcu : ∀ x, (lookupA s2.connections x).map Connection.userId =
      (lookupA s1.connections x).map Connection.userId) :
    GetActiveUsersInChannel s2 channel = GetActiveUsersInChannel s1 channel := by
  simp only [GetActiveUsersInChannel, hch]
  cases hc : lookupA s1.channels channel with
  | none => rfl
  | some connIDs =>
    apply List.foldl_ext
    intro users cid _
    have h := hcu cid
    cases h2 : lookupA s2.connections cid with
    | none =>
      cases h1 : lookupA s1.connections cid with
      | none => rfl
      | some c1 => rw [h2, h1] at h; simp at h
    | some c2 =>
      cases h1 : lookupA s1.connections cid with
      | none => rw [h2, h1] at h; simp at h
      | some c1 =>
        rw [h2, h1] at h
        simp only [Option.map_some', Option.some.injEq] at h
        simp [h]

theorem broadcastToChannel_channels (s : Server) (c0 : String) (m : Message)
    (o : BroadcastOptions) :
    (broadcastToChannel s c0 m o).1.channels = s.channels := by
  cases hc : lookupA s.channels c0 with
  | none => simp [broadcastToChannel, hc]
  | some connIDs => simp [broadcastToChannel, hc, channels_foldl_send]

theorem activeUsers_broadcastToChannel (s : Server) (c0 : String) (m : Message)
    (o : BroadcastOptions) (channel : String) :
    GetActiveUsersInChannel (broadcastToChannel s c0 m o).1 channel =
      GetActiveUsersInChannel s channel := by
  cases hc : lookupA s.channels c0 with
  | none => simp [broadcastToChannel, hc]
  | some connIDs =>
    have h1 : (broadcastToChannel s c0 m o).1 =
        connIDs.foldl (fun st cid => (SendToConnection st cid m).1) s := by
      simp [broadcastToChannel, hc]
    rw [h1]
    exact activeUsers_congr s _ channel (channels_foldl_send connIDs s m)
      (connUser_foldl_send connIDs s m)

theorem broadcastToChannel_found (s : Server) (c0 : String) (m : Message)
    (o : BroadcastOptions) (st : List String)
    (h : lookupA s.channels c0 = some st) :
    (broadcastToChannel s c0 m o).2.1 = [Event.fanout c0 m] ∧
    (broadcastToChannel s c0 m o).2.2 = Except.ok () := by
  constructor <;> simp [broadcastToChannel, h]

theorem presenceBroadcast_events (nano : Nat) (s : Server) (m : Message)
    (st : List String) (h : lookupA s.channels m.channel = some st) :
    (presenceBroadcast nano s m).2 = [Event.fanout m.channel
      { id := generateMessageID nano
        type := "system:presence"
        sender := "system"
        recipient := ""
        channel := m.channel
        payload := some [("users",
          PValue.strList (GetActiveUsersInChannel s m.channel))]
        timestamp := m.timestamp }] := by
  simp [presenceBroadcast, broadcastToChannel, h]

/-- C6 (amended): on a presence join (payload action `"join"`, non-empty
channel) the handler first subscribes the originating session to the
channel, then performs exactly two fan-outs in this order: one
`system:user_joined` envelope (sender `"system"`, payload user taken from
the envelope's sender field) to the channel, then one `system:presence`
envelope carrying the channel's active-user list of the post-subscription
state — and the handler returns nil. -/
theorem presence_join_sequence (nano : Nat) (s s1 : Server) (conn : Connection)
    (msg : Message)
    (hact : payloadGetString msg.payload "action" = some "join")
    (hch : msg.channel ≠ "")
    (hsub : SubscribeToChannel s conn.id msg.channel = Except.ok s1) :
    (PresenceHandler nano s conn msg).2.2 = Except.ok () ∧
    (PresenceHandler nano s conn msg).2.1 =
      [Event.fanout msg.channel
        { id := generateMessageID nano
          type := "system:user_joined"
          sender := "system"
          recipient := ""
          channel := msg.channel
          payload := some [("user", PValue.str msg.sender)]
          timestamp := msg.timestamp },
       Event.fanout msg.channel
        { id := generateMessageID (nano + 1)
          type := "system:presence"
          sender := "system"
          recipient := ""
          channel := msg.channel
          payload := some [("users",
            PValue.strList (GetActiveUsersInChannel s1 msg.channel))]
          timestamp := msg.timestamp }] := by
  cases hreg : lookupA s.connections conn.id with
  | none => rw [SubscribeToChannel, hreg] at hsub; cases hsub
  | some conn0 =>
    have hentry : lookupA s1.channels msg.channel =
        some (insertSet ((lookupA s.channels msg.channel).getD []) conn.id) := by
      simp only [SubscribeToChannel, hreg, Except.ok.injEq] at hsub
      rw [← hsub]
      simp [lookupA_insertA]
    have hjoin := broadcastToChannel_found s1 msg.channel
      { id := generateMessageID nano
        type := "system:user_joined"
        sender := "system"
        recipient := ""
        channel := msg.channel
        payload := some [("user", PValue.str msg.sender)]
        timestamp := msg.timestamp } {} _ hentry
    have hchan2 : lookupA (broadcastToChannel s1 msg.channel
        { id := generateMessageID nano
          type := "system:user_joined"
          sender := "system"
          recipient := ""
          channel := msg.channel
          payload := some [("user", PValue.str msg.sender)]
          timestamp := msg.timestamp } {}).1.channels msg.channel =
        some (insertSet ((lookupA s.channels msg.channel).getD []) conn.id) := by
      rw [broadcastToChannel_channels]
      exact hentry
    have hpres := presenceBroadcast_events (nano + 1)
      (broadcastToChannel s1 msg.channel
        { id := generateMessageID nano
          type := "system:user_joined"
          sender := "system"
          recipient := ""
          channel := msg.channel
          payload := some [("user", PValue.str msg.sender)]
          timestamp := msg.timestamp } {}).1 msg _ hchan2
    rw [activeUsers_broadcastToChannel] at hpres
    constructor
    · simp [PresenceHandler, hact, hch, hsub]
    · simp only [PresenceHandler, hact, hch, hsub]
      simp only [ne_eq, hch, not_false_iff, and_true, if_pos]
      rw [hjoin.1, hpres]
      rfl

/-- C6 counterexample: when the envelope's sender field ("mallory") differs
from the originating session's user id ("alice"), the synthesized
`system:user_joined` payload carries the envelope's sender, not the
originating user id, so the claim's payload description fails as stated. -/
theorem presence_join_user_counterexample :
    connC6.userId = "alice" ∧
    (PresenceHandler 0 srvC6 connC6 msgC6).2.1 =
      [Event.fanout "dev"
        { id := generateMessageID 0
          type := "system:user_joined"
          sender := "system"
          recipient := ""
          channel := "dev"
          payload := some [("user", PValue.str "mallory")]
          timestamp := 3 },
       Event.fanout "dev"
        { id := generateMessageID 1
          type := "system:presence"
          sender := "system"
          recipient := ""
          channel := "dev"
          payload := some [("users", PValue.strList ["alice"])]
          timestamp := 3 }] ∧
    "mallory" ≠ "alice" :=
  ⟨rfl, rfl, by decide⟩

/-- Witness for C6's amended claim at a concrete join envelope. -/
theorem presence_join_sequence_witness :
    (PresenceHandler 0 srvC6 connC6 msgC6).2.2 = Except.ok () ∧
    (PresenceHandler 0 srvC6 connC6 msgC6).2.1 =
      [Event.fanout msgC6.channel
        { id := generateMessageID 0
          type := "system:user_joined"
          sender := "system"
          recipient := ""
          channel := msgC6.channel
          payload := some [("user", PValue.str msgC6.sender)]
          timestamp := msgC6.timestamp },
       Event.fanout msgC6.channel
        { id := generateMessageID 1
          type := "system:presence"
          sender := "system"
          recipient := ""
          channel := msgC6.channel
          payload := some [("users",
            PValue.strList (GetActiveUsersInChannel srvC6sub msgC6.channel))]
          timestamp := msgC6.timestamp }] :=
  presence_join_sequence 0 srvC6 srvC6sub connC6 msgC6 rfl (by decide) rfl
